import Mathlib

/-!
Shallow embedding of the skyscanner repository's sensor-fusion core:
the `OrientationTracker` (gyroscope integration plus the accelerometer
drift-correction routine) from `src/utils/photoDataRecorder.ts` /
`orientationTracker.ts`, and the `ScanTracker` (spherical FOV coverage)
from `src/utils/scanTracker.ts`.

JavaScript numbers are modelled as real numbers (`ℝ`), `Math.PI` as
`Real.pi`, `Math.sin`/`Math.cos`/`Math.acos`/`Math.sqrt` as the
corresponding `Real` functions (the source clamps the `acos` argument to
`[-1, 1]`, on which `Real.arccos` agrees with the IEEE function's
mathematical value), `Math.atan2` by its usual case split on the sign of
the second argument, and the JavaScript `%` operator as the truncating
remainder.  Callbacks are modelled as returned `Option` values: `none`
means the callback was not invoked, `some v` means it was invoked
synchronously with value `v`.  `Date.now()` is modelled as an explicit
time parameter.
-/

noncomputable section

namespace SkyScan

open Real

/-- Orientation record `{pitch, yaw, roll}` (radians), from
`orientationTracker.ts`. -/
structure Orientation where
  pitch : ℝ
  yaw : ℝ
  roll : ℝ

/-- Raw sensor sample `{x, y, z}`, from `orientationTracker.ts`. -/
structure Vector3 where
  x : ℝ
  y : ℝ
  z : ℝ

/-- JavaScript `Math.atan2 y x`: angle of the point `(x, y)` in `(-π, π]`. -/
def atan2 (y x : ℝ) : ℝ :=
  if 0 < x then Real.arctan (y / x)
  else if x < 0 then
    (if 0 ≤ y then Real.arctan (y / x) + Real.pi else Real.arctan (y / x) - Real.pi)
  else
    (if 0 < y then Real.pi / 2 else if y < 0 then -(Real.pi / 2) else 0)

/-- Truncation toward zero, as used by the JavaScript `%` operator. -/
def jsTrunc (x : ℝ) : ℤ :=
  if 0 ≤ x then ⌊x⌋ else ⌈x⌉

/-- JavaScript remainder operator `a % b` (sign follows the dividend). -/
def jsMod (a b : ℝ) : ℝ :=
  a - b * (jsTrunc (a / b) : ℝ)

/-! ## OrientationTracker (gyroscope side)

State touched by the gyroscope listener in `setupGyroscope`:
`currentOrientation` and `lastTimestamp`.  The drift-correction fields
(`latestAccelData`, `lastDriftCorrection`) never influence this listener
in the source: the call to `applyDriftCorrection` inside the listener is
commented out. -/

/-- The mutable state read and written by the gyroscope listener. -/
structure GyroState where
  orientation : Orientation
  lastTimestamp : ℝ

namespace OrientationTracker

/-- Fixed configuration `driftCorrectionStrength = 0.1`. -/
def driftCorrectionStrength : ℝ := 0.1

/-- Fixed configuration `driftCorrectionInterval = 2000` (ms). -/
def driftCorrectionInterval : ℝ := 2000

/-- Linear interpolation `lerp(a, b, t) = a + (b - a) * t`. -/
def lerp (a b t : ℝ) : ℝ := a + (b - a) * t

/-- The pure-integration update of the accepted branch of the gyroscope
listener: `pitch += x·Δt; yaw += y·Δt; roll += z·Δt` with
`Δt = (currentTime - lastTimestamp) / 1000`. -/
def integrate (s : GyroState) (t : ℝ) (ω : Vector3) : Orientation :=
  let deltaTime := (t - s.lastTimestamp) / 1000
  ⟨s.orientation.pitch + ω.x * deltaTime,
   s.orientation.yaw + ω.y * deltaTime,
   s.orientation.roll + ω.z * deltaTime⟩

/-- One invocation of the gyroscope listener of `setupGyroscope`, on a
sample with angular velocity `ω` arriving at time `t` (`Date.now()`).
Returns the new state and the value passed to the orientation-change
callback (`none` when the callback is not invoked).

Source behaviour: if `lastTimestamp === 0` the sample only seeds
`lastTimestamp`; else `deltaTime = (t - lastTimestamp)/1000` and
`lastTimestamp` is updated; if `deltaTime > 0.1` the sample is dropped;
otherwise the sample is integrated and the callback receives the updated
orientation.  The drift-correction block in the listener is commented
out in the source and therefore absent here. -/
def gyroStep (s : GyroState) (t : ℝ) (ω : Vector3) : GyroState × Option Orientation :=
  if s.lastTimestamp = 0 then
    ({ s with lastTimestamp := t }, none)
  else
    let deltaTime := (t - s.lastTimestamp) / 1000
    if deltaTime > 0.1 then
      ({ s with lastTimestamp := t }, none)
    else
      let o := integrate s t ω
      (⟨o, t⟩, some o)

/-- Run the gyroscope listener over a list of `(timestamp, ω)` samples,
keeping only the final state. -/
def gyroRun (s : GyroState) (samples : List (ℝ × Vector3)) : GyroState :=
  samples.foldl (fun st p => (gyroStep st p.1 p.2).1) s

/-- Samples of a constant angular velocity `ω` delivered at the fixed
cadence `d` (ms) starting one period after `t0`. -/
def constSamples (t0 d : ℝ) (ω : Vector3) (n : ℕ) : List (ℝ × Vector3) :=
  (List.range n).map (fun k => (t0 + (k + 1 : ℕ) * d, ω))

/-- The drift-correction routine `applyDriftCorrection`, translated from
the source: it is a no-op when the cached acceleration vector is exactly
zero, and otherwise blends pitch and roll by `lerp` at strength `0.1`
toward `truePitch = atan2(-ay, sqrt(ax²+az²))` and
`trueRoll = atan2(ax, az)`.  (In the source this routine exists but its
only call site, inside the gyroscope listener, is commented out.) -/
def applyDriftCorrection (accel : Vector3) (o : Orientation) : Orientation :=
  if accel.x = 0 ∧ accel.y = 0 ∧ accel.z = 0 then o
  else
    let truePitch := atan2 (-accel.y) (Real.sqrt (accel.x * accel.x + accel.z * accel.z))
    let trueRoll := atan2 accel.x accel.z
    ⟨lerp o.pitch truePitch driftCorrectionStrength,
     o.yaw,
     lerp o.roll trueRoll driftCorrectionStrength⟩

/-- Source `getCurrentOrientation()`: returns (a copy of) the current estimate. -/
def getCurrentOrientation (s : GyroState) : Orientation :=
  s.orientation

/-- Source `reset()`: zero the orientation and clear `lastTimestamp`. -/
def reset (_s : GyroState) : GyroState :=
  ⟨⟨0, 0, 0⟩, 0⟩

/-- One entry of a gyroscope run trace: the state before the sample, the
sample itself, and the value handed to the orientation callback. -/
structure TraceEntry where
  pre : GyroState
  time : ℝ
  omega : Vector3
  emitted : Option Orientation

/-- Trace of a run of the gyroscope listener over a sample list. -/
def gyroTrace (s : GyroState) : List (ℝ × Vector3) → List TraceEntry
  | [] => []
  | (t, ω) :: rest =>
      let r := gyroStep s t ω
      ⟨s, t, ω, r.2⟩ :: gyroTrace r.1 rest

/-- The drift-correction blend of strength `0.1` toward the
acceleration-derived reference was applied to the orientation emitted at
this trace entry. -/
def driftBlendApplied (accel : Vector3) (e : TraceEntry) : Prop :=
  e.emitted = some (applyDriftCorrection accel (integrate e.pre e.time e.omega))

/-- Statement of the spec's drift-correction cadence claim for one run:
some emitted estimate of the run has the blend applied. -/
def driftBlendAppliedInRun (s : GyroState) (samples : List (ℝ × Vector3))
    (accel : Vector3) : Prop :=
  ∃ e ∈ gyroTrace s samples, driftBlendApplied accel e

end OrientationTracker

/-! ## ScanTracker (`src/utils/scanTracker.ts`) -/

/-- A scanned point `{phi, theta, timestamp}` on the unit sphere. -/
structure ScanPoint where
  phi : ℝ
  theta : ℝ
  timestamp : ℝ

/-- Coverage report `{totalCoverage, scannedPoints}`. -/
structure ScanCoverage where
  totalCoverage : ℝ
  scannedPoints : List ScanPoint

/-- The mutable fields of `ScanTracker`: the append-only point history
and the throttle timestamp `lastCaptureTime`. -/
structure TrackerState where
  scannedPoints : List ScanPoint
  lastCaptureTime : ℝ

namespace ScanTracker

/-- Fixed configuration `gridResolution = 10`. -/
def gridResolution : ℕ := 10

/-- Fixed configuration `fovRadians = 75°` in radians. -/
def fovRadians : ℝ := 75 * Real.pi / 180

/-- Fixed configuration `minDwellTime = 200` (ms). -/
def minDwellTime : ℝ := 200

/-- Band start `WHITE_DOME_PHI_START = 2π/3`. -/
def WHITE_DOME_PHI_START : ℝ := 2 * Real.pi / 3

/-- Band end `WHITE_DOME_PHI_END = π`. -/
def WHITE_DOME_PHI_END : ℝ := Real.pi

/-- Precomputed `WHITE_DOME_PHI_RANGE`. -/
def WHITE_DOME_PHI_RANGE : ℝ := WHITE_DOME_PHI_END - WHITE_DOME_PHI_START

/-- Precomputed `WHITE_DOME_PHI_START_WITH_TOLERANCE`. -/
def WHITE_DOME_PHI_START_WITH_TOLERANCE : ℝ := WHITE_DOME_PHI_START - 0.05

/-- Precomputed `WHITE_DOME_PHI_END_WITH_TOLERANCE`. -/
def WHITE_DOME_PHI_END_WITH_TOLERANCE : ℝ := WHITE_DOME_PHI_END + 0.05

/-- Precomputed `TWO_PI`. -/
def TWO_PI : ℝ := 2 * Real.pi

/-- Precomputed `HALF_FOV = fovRadians / 2`. -/
def HALF_FOV : ℝ := fovRadians / 2

/-- Source `isInWhiteDome(phi)`: the point is inside the scannable band
extended by the 0.05 rad tolerance on both sides. -/
def isInWhiteDome (phi : ℝ) : Prop :=
  WHITE_DOME_PHI_START_WITH_TOLERANCE ≤ phi ∧ phi ≤ WHITE_DOME_PHI_END_WITH_TOLERANCE

instance (phi : ℝ) : Decidable (isInWhiteDome phi) := by
  unfold isInWhiteDome
  infer_instance

/-- Source `generateFOVPattern()`: the `(u, v)` offsets of a `10 × 10` raster of
`[-1, 1]²` restricted to the unit disc `u² + v² ≤ 1`. -/
def fovSamplePattern : List (ℝ × ℝ) :=
  (((List.range 10).flatMap fun i =>
    (List.range 10).map fun j =>
      ((i : ℝ) / (10 - 1) * 2 - 1, (j : ℝ) / (10 - 1) * 2 - 1)).filter
    fun uv => decide (uv.1 * uv.1 + uv.2 * uv.2 ≤ 1))

/-- Source `orientationToSpherical(orientation)`: rotate the forward vector by
yaw and by pitch offset by `-π/2`, clamp, and convert to `(phi, theta)`
with `theta` normalized into `[0, 2π)` by adding `2π` when negative. -/
def orientationToSpherical (o : Orientation) : ℝ × ℝ :=
  let adjustedPitch := o.pitch - Real.pi / 2
  let x := Real.sin o.yaw * Real.cos adjustedPitch
  let y := Real.sin adjustedPitch
  let z := -Real.cos o.yaw * Real.cos adjustedPitch
  let phi := Real.arccos (max (-1) (min 1 y))
  let theta := atan2 z x
  (phi, if theta < 0 then theta + TWO_PI else theta)

/-- Source `calculateFOVCoverage(centerPhi, centerTheta)` at time `now`
(`Date.now()`): for each precomputed `(u, v)` offset, compute the offset
point, normalize its theta into `[0, 2π)` via the JavaScript remainder,
and keep it only when `0 ≤ offsetPhi ≤ π` and it lies in the white
dome. -/
def calculateFOVCoverage (centerPhi centerTheta now : ℝ) : List ScanPoint :=
  let sinCenterPhi := Real.sin (max centerPhi 0.001)
  fovSamplePattern.filterMap fun uv =>
    let offsetPhi := centerPhi + uv.2 * HALF_FOV
    let offsetTheta := centerTheta + uv.1 * HALF_FOV / sinCenterPhi
    let normalizedTheta := jsMod (jsMod offsetTheta TWO_PI + TWO_PI) TWO_PI
    if 0 ≤ offsetPhi ∧ offsetPhi ≤ Real.pi ∧ isInWhiteDome offsetPhi then
      some ⟨offsetPhi, normalizedTheta, now⟩
    else none

/-- Grid cell of a point: `gridPhi = ⌊(phi - bandStart) / bandRange · R⌋`,
`gridTheta = ⌊theta / 2π · R⌋`. -/
def pointCell (p : ScanPoint) : ℤ × ℤ :=
  (⌊(p.phi - WHITE_DOME_PHI_START) / WHITE_DOME_PHI_RANGE * (gridResolution : ℝ)⌋,
   ⌊p.theta / TWO_PI * (gridResolution : ℝ)⌋)

/-- Marking step of the coverage-grid loop: a white-dome point whose
cell indices pass the bounds check sets its grid cell to `true`.  The
`R×R` boolean grid is modelled as the finite set of cells holding
`true`. -/
def markPoint (grid : Finset (ℤ × ℤ)) (p : ScanPoint) : Finset (ℤ × ℤ) :=
  if isInWhiteDome p.phi then
    if 0 ≤ (pointCell p).1 ∧ (pointCell p).1 < (gridResolution : ℤ) ∧
        0 ≤ (pointCell p).2 ∧ (pointCell p).2 < (gridResolution : ℤ) then
      insert (pointCell p) grid
    else grid
  else grid

/-- The coverage grid rebuilt from scratch from the whole point
history. -/
def buildGrid (pts : List ScanPoint) : Finset (ℤ × ℤ) :=
  pts.foldl markPoint ∅

/-- Source `calculateCoverage()`: empty history reports zero; otherwise rebuild
the grid, count covered cells, convert to a percentage, snap to 100 when
within the 4-point tolerance of full, and clamp with `min(·, 100)`. -/
def calculateCoverage (pts : List ScanPoint) : ScanCoverage :=
  if pts.length = 0 then ⟨0, []⟩
  else
    let coveredCells := (buildGrid pts).card
    let totalCells : ℝ := (gridResolution : ℝ) * (gridResolution : ℝ)
    let coverage := (coveredCells : ℝ) / totalCells * 100
    let tolerance : ℝ := 4
    let adjustedCoverage := if coverage ≥ 100 - tolerance then 100 else coverage
    ⟨min adjustedCoverage 100, pts⟩

/-- Source `updateOrientation(orientation)` at wall-clock time `now`
(`Date.now()`).  Throttled within `minDwellTime` of the last accepted
call; otherwise `lastCaptureTime` is updated, and if the look direction
is in the white dome the FOV footprint is appended to the history and
the coverage callback is invoked with the recomputed coverage. -/
def updateOrientation (s : TrackerState) (o : Orientation) (now : ℝ) :
    TrackerState × Option ScanCoverage :=
  if now - s.lastCaptureTime < minDwellTime then (s, none)
  else if ¬ isInWhiteDome (orientationToSpherical o).1 then
    ({ s with lastCaptureTime := now }, none)
  else
    ({ scannedPoints := s.scannedPoints ++
        calculateFOVCoverage (orientationToSpherical o).1 (orientationToSpherical o).2 now,
       lastCaptureTime := now },
     some (calculateCoverage (s.scannedPoints ++
        calculateFOVCoverage (orientationToSpherical o).1 (orientationToSpherical o).2 now)))

/-- Source `getCoverage()`: recompute from the stored history. -/
def getCoverage (s : TrackerState) : ScanCoverage :=
  calculateCoverage s.scannedPoints

/-- Source `reset()`: clear the history and throttle timestamp and synchronously
invoke the coverage callback with `{totalCoverage: 0, scannedPoints: []}`
(the second component is the value handed to the callback). -/
def reset (_s : TrackerState) : TrackerState × ScanCoverage :=
  (⟨[], 0⟩, ⟨0, []⟩)

/-- Raw percentage `(visitedCells / R²) × 100` before snapping and
clamping. -/
def rawCoverage (pts : List ScanPoint) : ℝ :=
  ((buildGrid pts).card : ℝ) / ((gridResolution : ℝ) * (gridResolution : ℝ)) * 100

/-- The reported percentage as a closed-form function of the history:
the raw percentage, snapped to exactly 100 when at least 96, clamped by
`min(·, 100)`. -/
def totalCoverageFormula (pts : List ScanPoint) : ℝ :=
  min (if 96 ≤ rawCoverage pts then 100 else rawCoverage pts) 100

/-- Well-formedness of a stored scan point: `phi ∈ [0, π]`, inside the
tolerance-extended white dome, and `theta ∈ [0, 2π)`. -/
def pointOK (p : ScanPoint) : Prop :=
  0 ≤ p.phi ∧ p.phi ≤ Real.pi ∧ isInWhiteDome p.phi ∧ 0 ≤ p.theta ∧ p.theta < TWO_PI

end ScanTracker

/-! ## Reference-semantics model of the orientation tracker boundary

JavaScript objects are passed by reference.  To state the aliasing
behaviour at the core/consumer boundary, the heap of `Orientation`
objects is modelled explicitly: addresses are indices into a list, the
tracker holds the address of its `currentOrientation` object, the
gyroscope listener mutates that object in place and hands the callback
the address of the very same object (`this.currentOrientation`), while
`getCurrentOrientation()` evaluates `{...this.currentOrientation}`,
allocating a fresh object with the field values copied. -/
namespace RefModel

/-- Tracker state under reference semantics: the object heap and the
address of `this.currentOrientation`. -/
structure RefState where
  heap : List Orientation
  cur : ℕ

/-- Dereference an address (out-of-range reads a dummy). -/
def readAddr (h : List Orientation) (a : ℕ) : Orientation :=
  h.getD a ⟨0, 0, 0⟩

/-- Overwrite the object stored at an address. -/
def writeAddr (h : List Orientation) (a : ℕ) (o : Orientation) : List Orientation :=
  h.set a o

/-- The gyroscope listener under reference semantics: on an accepted
sample it mutates the `currentOrientation` object in place
(`this.currentOrientation.pitch += ...`) and invokes the callback with
the address of that same object.  The second component is the address
handed to the callback. -/
def gyroUpdate (st : RefState) (lastTimestamp t : ℝ) (ω : Vector3) : RefState × Option ℕ :=
  if lastTimestamp = 0 then (st, none)
  else if (t - lastTimestamp) / 1000 > 0.1 then (st, none)
  else
    ({ st with heap := (writeAddr st.heap st.cur
        ⟨(readAddr st.heap st.cur).pitch + ω.x * ((t - lastTimestamp) / 1000),
         (readAddr st.heap st.cur).yaw + ω.y * ((t - lastTimestamp) / 1000),
         (readAddr st.heap st.cur).roll + ω.z * ((t - lastTimestamp) / 1000)⟩) },
     some st.cur)

/-- Source `getCurrentOrientation()` under reference semantics: the spread
`{...this.currentOrientation}` allocates a fresh object (address
`st.heap.length`) holding a copy of the current field values, and that
fresh address is what the caller receives. -/
def getCurrentOrientation (st : RefState) : RefState × ℕ :=
  ({ st with heap := st.heap ++ [readAddr st.heap st.cur] }, st.heap.length)

/-- A consumer mutating an object it received through the boundary. -/
def consumerWrite (st : RefState) (a : ℕ) (o : Orientation) : RefState :=
  { st with heap := writeAddr st.heap a o }

end RefModel

end SkyScan

namespace SkyScan

open OrientationTracker

/-- Helper: a sample with `lastTimestamp ≠ 0` and `t - lastTimestamp ≤ 100`
is accepted and integrated. -/
theorem gyroStep_accepted (s : GyroState) (t : ℝ) (ω : Vector3)
    (h0 : s.lastTimestamp ≠ 0) (h2 : t - s.lastTimestamp ≤ 100) :
    gyroStep s t ω = (⟨integrate s t ω, t⟩, some (integrate s t ω)) := by
  unfold gyroStep
  rw [if_neg h0, if_neg (by push_neg; linarith)]

/-- Helper: recursion equation for `constSamples`. -/
theorem constSamples_succ (t0 d : ℝ) (ω : Vector3) (n : ℕ) :
    constSamples t0 d ω (n + 1) = (t0 + d, ω) :: constSamples (t0 + d) d ω n := by
  unfold constSamples
  rw [List.range_succ_eq_map, List.map_cons, List.map_map]
  refine congrArg₂ _ (by norm_num) (List.map_congr_left fun k _ => ?_)
  simp only [Function.comp_apply, Prod.mk.injEq]
  push_cast
  constructor
  · ring
  · trivial

/-- Helper: running `constSamples` from a seeded state integrates each
sample, adding `ω · d/1000` per sample. -/
theorem gyroRun_constSamples (n : ℕ) :
    ∀ (o : Orientation) (t0 d : ℝ) (ω : Vector3), 0 < t0 → 0 < d → d ≤ 100 →
    gyroRun ⟨o, t0⟩ (constSamples t0 d ω n) =
      ⟨⟨o.pitch + ω.x * n * (d / 1000),
        o.yaw + ω.y * n * (d / 1000),
        o.roll + ω.z * n * (d / 1000)⟩, t0 + n * d⟩ := by
  induction n with
  | zero =>
      intro o t0 d ω _ _ _
      simp [gyroRun, constSamples]
  | succ n ih =>
      intro o t0 d ω ht0 hd hd100
      rw [constSamples_succ]
      have hstep : gyroStep ⟨o, t0⟩ (t0 + d) ω =
          (⟨integrate ⟨o, t0⟩ (t0 + d) ω, t0 + d⟩,
           some (integrate ⟨o, t0⟩ (t0 + d) ω)) :=
        gyroStep_accepted _ _ _ (by positivity) (by simp; linarith)
      have hint : integrate ⟨o, t0⟩ (t0 + d) ω =
          ⟨o.pitch + ω.x * (d / 1000), o.yaw + ω.y * (d / 1000),
           o.roll + ω.z * (d / 1000)⟩ := by
        unfold integrate
        simp only
        ring_nf
      have : gyroRun ⟨o, t0⟩ ((t0 + d, ω) :: constSamples (t0 + d) d ω n) =
          gyroRun ⟨integrate ⟨o, t0⟩ (t0 + d) ω, t0 + d⟩ (constSamples (t0 + d) d ω n) := by
        unfold gyroRun
        rw [List.foldl_cons, hstep]
      rw [this, hint, ih _ _ _ _ (by linarith) hd hd100]
      simp only [GyroState.mk.injEq, Orientation.mk.injEq]
      refine ⟨⟨by push_cast; ring, by push_cast; ring, by push_cast; ring⟩, by push_cast; ring⟩

/-- C2: every angular-velocity sample accepted after the seeding sample
with `0 < Δt ≤ 100 ms` adds exactly `(ωx·Δt, ωy·Δt, ωz·Δt)` to
`(pitch, yaw, roll)` and synchronously invokes the orientation-change
callback with the updated value; consequently a constant angular
velocity `ω` applied for `n` fixed-`Δt` samples from a freshly seeded
zero state yields `pitch/yaw/roll = ω · n · Δt` exactly. -/
theorem claim_C2 :
    (∀ (s : GyroState) (t : ℝ) (ω : Vector3),
      s.lastTimestamp ≠ 0 → 0 < t - s.lastTimestamp → t - s.lastTimestamp ≤ 100 →
      gyroStep s t ω =
        (⟨⟨s.orientation.pitch + ω.x * ((t - s.lastTimestamp) / 1000),
           s.orientation.yaw + ω.y * ((t - s.lastTimestamp) / 1000),
           s.orientation.roll + ω.z * ((t - s.lastTimestamp) / 1000)⟩, t⟩,
         some ⟨s.orientation.pitch + ω.x * ((t - s.lastTimestamp) / 1000),
               s.orientation.yaw + ω.y * ((t - s.lastTimestamp) / 1000),
               s.orientation.roll + ω.z * ((t - s.lastTimestamp) / 1000)⟩))
    ∧
    (∀ (ω : Vector3) (t0 d : ℝ) (n : ℕ), 0 < t0 → 0 < d → d ≤ 100 →
      (gyroRun ⟨⟨0, 0, 0⟩, t0⟩ (constSamples t0 d ω n)).orientation =
        ⟨ω.x * n * (d / 1000), ω.y * n * (d / 1000), ω.z * n * (d / 1000)⟩) := by
  constructor
  · intro s t ω h0 _ h2
    rw [gyroStep_accepted s t ω h0 h2]
    rfl
  · intro ω t0 d n ht0 hd hd100
    rw [gyroRun_constSamples n ⟨0, 0, 0⟩ t0 d ω ht0 hd hd100]
    simp

/-- Witness for C2 at concrete inputs: a sample with `Δt = 100 ms` from a
seeded state, and three constant-rate samples at `Δt = 100 ms`. -/
theorem claim_C2_witness :
    gyroStep ⟨⟨1, 2, 3⟩, 1000⟩ 1100 ⟨2, 4, 6⟩ =
      (⟨⟨1 + 2 * ((1100 - 1000) / 1000), 2 + 4 * ((1100 - 1000) / 1000),
         3 + 6 * ((1100 - 1000) / 1000)⟩, 1100⟩,
       some ⟨1 + 2 * ((1100 - 1000) / 1000), 2 + 4 * ((1100 - 1000) / 1000),
             3 + 6 * ((1100 - 1000) / 1000)⟩)
    ∧ (gyroRun ⟨⟨0, 0, 0⟩, 1000⟩ (constSamples 1000 100 ⟨2, 4, 6⟩ 3)).orientation =
        ⟨2 * 3 * (100 / 1000), 4 * 3 * (100 / 1000), 6 * 3 * (100 / 1000)⟩ :=
  ⟨claim_C2.1 ⟨⟨1, 2, 3⟩, 1000⟩ 1100 ⟨2, 4, 6⟩ (by norm_num) (by norm_num) (by norm_num),
   by
    have h := claim_C2.2 ⟨2, 4, 6⟩ 1000 100 3 (by norm_num) (by norm_num) (by norm_num)
    rw [h]
    norm_num⟩

/-- C7: a first sample after start/reset (`lastTimestamp = 0`) and any
sample whose implied `Δt` exceeds 100 ms leave pitch, yaw and roll
unchanged and invoke no orientation callback, while `lastTimestamp` is
still updated to the sample's timestamp. -/
theorem claim_C7 :
    ∀ (s : GyroState) (t : ℝ) (ω : Vector3),
      (s.lastTimestamp = 0 →
        gyroStep s t ω = (⟨s.orientation, t⟩, none))
      ∧ (s.lastTimestamp ≠ 0 → 100 < t - s.lastTimestamp →
        gyroStep s t ω = (⟨s.orientation, t⟩, none)) := by
  intro s t ω
  constructor
  · intro h0
    unfold gyroStep
    rw [if_pos h0]
  · intro h0 hgap
    unfold gyroStep
    rw [if_neg h0, if_pos (show (t - s.lastTimestamp) / 1000 > 0.1 by linarith)]

/-- Witness for C7: a seeding sample (`lastTimestamp = 0`) and a stale
sample with `Δt = 500 ms` are both discarded without integration. -/
theorem claim_C7_witness :
    gyroStep ⟨⟨1, 2, 3⟩, 0⟩ 1000 ⟨9, 9, 9⟩ = (⟨⟨1, 2, 3⟩, 1000⟩, none)
    ∧ gyroStep ⟨⟨1, 2, 3⟩, 1000⟩ 1500 ⟨9, 9, 9⟩ = (⟨⟨1, 2, 3⟩, 1500⟩, none) :=
  ⟨(claim_C7 ⟨⟨1, 2, 3⟩, 0⟩ 1000 ⟨9, 9, 9⟩).1 rfl,
   (claim_C7 ⟨⟨1, 2, 3⟩, 1000⟩ 1500 ⟨9, 9, 9⟩).2 (by norm_num) (by norm_num)⟩

/-- C1, counterexample: a run of samples spanning 2400 ms (more than the
2000 ms drift-correction cadence) with a non-zero cached acceleration
vector in which no emitted orientation estimate has the 0.1-strength
blend toward the acceleration-derived reference applied.  The call to
`applyDriftCorrection` inside the gyroscope listener is commented out in
the source, so the listener emits pure integration results only. -/
theorem claim_C1_counterexample :
    (3500 - 1100 : ℝ) > OrientationTracker.driftCorrectionInterval
    ∧ (⟨0, -1, 0⟩ : Vector3) ≠ ⟨0, 0, 0⟩
    ∧ ¬ driftBlendAppliedInRun ⟨⟨0, 0, 0⟩, 1000⟩
        [(1100, ⟨0, 0, 0⟩), (3500, ⟨0, 0, 0⟩)] ⟨0, -1, 0⟩ := by
  refine ⟨by norm_num [OrientationTracker.driftCorrectionInterval], by simp, ?_⟩
  have hstep1 : gyroStep ⟨⟨0, 0, 0⟩, 1000⟩ 1100 ⟨0, 0, 0⟩ =
      (⟨⟨0, 0, 0⟩, 1100⟩, some ⟨0, 0, 0⟩) := by
    unfold gyroStep integrate
    norm_num
  have hstep2 : gyroStep ⟨⟨0, 0, 0⟩, 1100⟩ 3500 ⟨0, 0, 0⟩ =
      (⟨⟨0, 0, 0⟩, 3500⟩, none) := by
    unfold gyroStep
    norm_num
  have htrace : gyroTrace ⟨⟨0, 0, 0⟩, 1000⟩ [(1100, ⟨0, 0, 0⟩), (3500, ⟨0, 0, 0⟩)] =
      [⟨⟨⟨0, 0, 0⟩, 1000⟩, 1100, ⟨0, 0, 0⟩, some ⟨0, 0, 0⟩⟩,
       ⟨⟨⟨0, 0, 0⟩, 1100⟩, 3500, ⟨0, 0, 0⟩, none⟩] := by
    simp only [gyroTrace, hstep1, hstep2]
  have hint1 : integrate ⟨⟨0, 0, 0⟩, 1000⟩ 1100 ⟨0, 0, 0⟩ = ⟨0, 0, 0⟩ := by
    unfold integrate
    norm_num
  have hblend : applyDriftCorrection ⟨0, -1, 0⟩ ⟨0, 0, 0⟩ =
      ⟨Real.pi / 2 * (1 / 10), 0, 0⟩ := by
    unfold applyDriftCorrection atan2 lerp driftCorrectionStrength
    norm_num
  rintro ⟨e, he, hba⟩
  rw [htrace] at he
  simp only [List.mem_cons, List.not_mem_nil, or_false] at he
  unfold driftBlendApplied at hba
  rcases he with he | he <;> subst he
  · simp only [hint1, hblend] at hba
    simp only [Option.some.injEq, Orientation.mk.injEq] at hba
    have hpi := Real.pi_pos
    linarith [hba.1]
  · simp at hba

/-- C1, amended: the gyroscope listener never applies the drift
correction; every invocation either discards the sample (seeding or
stale gap) or emits exactly the pure-integration update, independent of
the cached acceleration data. -/
theorem claim_C1_amended :
    ∀ (s : GyroState) (t : ℝ) (ω : Vector3),
      gyroStep s t ω = (⟨integrate s t ω, t⟩, some (integrate s t ω))
      ∨ gyroStep s t ω = (⟨s.orientation, t⟩, none) := by
  intro s t ω
  by_cases h1 : s.lastTimestamp = 0
  · right
    unfold gyroStep
    rw [if_pos h1]
  · by_cases h2 : (t - s.lastTimestamp) / 1000 > 0.1
    · right
      unfold gyroStep
      rw [if_neg h1, if_pos h2]
    · left
      unfold gyroStep
      rw [if_neg h1, if_neg h2]

end SkyScan

namespace SkyScan

open ScanTracker

/-- Helper: rewrite `a - b·t` as `(a/b - t)·b` for nonzero `b`. -/
theorem sub_mul_div_eq (a b : ℝ) (t : ℝ) (hb : b ≠ 0) :
    a - b * t = (a / b - t) * b := by
  rw [sub_mul, div_mul_cancel₀ a hb]
  ring

/-- Helper: the JavaScript remainder by a positive modulus is below the
modulus. -/
theorem jsMod_lt (a b : ℝ) (hb : 0 < b) : jsMod a b < b := by
  unfold jsMod jsTrunc
  split_ifs with h
  · rw [sub_mul_div_eq a b _ hb.ne']
    have h1 : a / b - (⌊a / b⌋ : ℝ) < 1 := by
      have := Int.lt_floor_add_one (a / b)
      linarith
    nlinarith
  · rw [sub_mul_div_eq a b _ hb.ne']
    have h1 : a / b - (⌈a / b⌉ : ℝ) ≤ 0 := by
      have := Int.le_ceil (a / b)
      linarith
    nlinarith

/-- Helper: the JavaScript remainder of a nonnegative number by a
positive modulus is nonnegative. -/
theorem jsMod_nonneg (a b : ℝ) (hb : 0 < b) (ha : 0 ≤ a) : 0 ≤ jsMod a b := by
  unfold jsMod jsTrunc
  rw [if_pos (by positivity)]
  rw [sub_mul_div_eq a b _ hb.ne']
  have h1 : 0 ≤ a / b - (⌊a / b⌋ : ℝ) := by
    have := Int.floor_le (a / b)
    linarith
  positivity

/-- Helper: the JavaScript remainder by a positive modulus exceeds the
negated modulus. -/
theorem neg_lt_jsMod (a b : ℝ) (hb : 0 < b) : -b < jsMod a b := by
  unfold jsMod jsTrunc
  split_ifs with h
  · rw [sub_mul_div_eq a b _ hb.ne']
    have h1 : 0 ≤ a / b - (⌊a / b⌋ : ℝ) := by
      have := Int.floor_le (a / b)
      linarith
    nlinarith
  · rw [sub_mul_div_eq a b _ hb.ne']
    have h1 : -1 < a / b - (⌈a / b⌉ : ℝ) := by
      have := Int.ceil_lt_add_one (a / b)
      linarith
    nlinarith

/-- Helper: the two-step normalization `((x % b) + b) % b` used by the
source lands in `[0, b)` for positive `b`. -/
theorem jsMod_normalize (a b : ℝ) (hb : 0 < b) :
    0 ≤ jsMod (jsMod a b + b) b ∧ jsMod (jsMod a b + b) b < b :=
  ⟨jsMod_nonneg _ _ hb (by linarith [neg_lt_jsMod a b hb]), jsMod_lt _ _ hb⟩

/-- Helper: every point produced by `calculateFOVCoverage` satisfies the
stored-point wellformedness predicate and carries the call's
timestamp. -/
theorem pointOK_of_mem_calculateFOVCoverage {cphi cth now : ℝ} {p : ScanPoint}
    (hp : p ∈ calculateFOVCoverage cphi cth now) : pointOK p := by
  have hb : (0 : ℝ) < TWO_PI := by
    unfold TWO_PI
    exact Real.two_pi_pos
  simp only [calculateFOVCoverage, List.mem_filterMap] at hp
  obtain ⟨uv, _, huv⟩ := hp
  split_ifs at huv with hc
  obtain ⟨h0, hpi, hdome⟩ := hc
  simp only [Option.some.injEq] at huv
  subst huv
  exact ⟨h0, hpi, hdome, (jsMod_normalize _ _ hb).1, (jsMod_normalize _ _ hb).2⟩

/-- Helper: marking a point only grows the grid. -/
theorem subset_markPoint (grid : Finset (ℤ × ℤ)) (p : ScanPoint) :
    grid ⊆ markPoint grid p := by
  unfold markPoint
  split_ifs
  · exact Finset.subset_insert _ _
  · exact Finset.Subset.refl _
  · exact Finset.Subset.refl _

/-- Helper: folding the marking step over any point list only grows the
grid. -/
theorem subset_foldl_markPoint (l : List ScanPoint) :
    ∀ grid : Finset (ℤ × ℤ), grid ⊆ l.foldl markPoint grid := by
  induction l with
  | nil =>
      intro grid
      rw [List.foldl_nil]
  | cons p l ih =>
      intro grid
      rw [List.foldl_cons]
      exact (subset_markPoint grid p).trans (ih _)

/-- Helper: appending history never removes covered cells. -/
theorem buildGrid_append_subset (l ext : List ScanPoint) :
    buildGrid l ⊆ buildGrid (l ++ ext) := by
  unfold buildGrid
  rw [List.foldl_append]
  exact subset_foldl_markPoint ext _

/-- Helper: the reported percentage equals the closed-form
snap-and-clamp formula over the raw percentage. -/
theorem calculateCoverage_totalCoverage (pts : List ScanPoint) :
    (calculateCoverage pts).totalCoverage = totalCoverageFormula pts := by
  unfold calculateCoverage totalCoverageFormula rawCoverage
  by_cases h : pts.length = 0
  · rw [if_pos h]
    have hnil : pts = [] := List.length_eq_zero.mp h
    subst hnil
    have hgrid : buildGrid ([] : List ScanPoint) = ∅ := rfl
    rw [hgrid]
    norm_num
  · rw [if_neg h]
    simp only [ge_iff_le, show (100 - 4 : ℝ) = 96 by norm_num]

/-- Helper: `calculateCoverage` hands back the entire history. -/
theorem calculateCoverage_scannedPoints (pts : List ScanPoint) :
    (calculateCoverage pts).scannedPoints = pts := by
  unfold calculateCoverage
  by_cases h : pts.length = 0
  · rw [if_pos h]
    exact (List.length_eq_zero.mp h).symm
  · rw [if_neg h]

/-- Helper: the snap-and-clamp formula is nonnegative. -/
theorem totalCoverageFormula_nonneg (pts : List ScanPoint) :
    0 ≤ totalCoverageFormula pts := by
  unfold totalCoverageFormula
  have h0 : 0 ≤ rawCoverage pts := by
    unfold rawCoverage
    positivity
  refine le_min ?_ (by norm_num)
  split_ifs
  · norm_num
  · exact h0

/-- Helper: the snap-and-clamp formula is monotone under grid growth. -/
theorem totalCoverageFormula_mono {pts1 pts2 : List ScanPoint}
    (h : buildGrid pts1 ⊆ buildGrid pts2) :
    totalCoverageFormula pts1 ≤ totalCoverageFormula pts2 := by
  have hcard : ((buildGrid pts1).card : ℝ) ≤ ((buildGrid pts2).card : ℝ) := by
    exact_mod_cast Finset.card_le_card h
  have hraw : rawCoverage pts1 ≤ rawCoverage pts2 := by
    unfold rawCoverage
    gcongr
  unfold totalCoverageFormula
  split_ifs with h1 h2
  · exact le_refl _
  · exact absurd (le_trans h1 hraw) h2
  · calc min (rawCoverage pts1) 100 ≤ 100 := min_le_right _ _
    _ = min 100 100 := by norm_num
  · exact min_le_min hraw (le_refl _)

/-- Helper: `updateOrientation` either leaves the history unchanged or
appends exactly the rasterized FOV footprint. -/
theorem updateOrientation_points_eq_or_append (s : TrackerState) (o : Orientation) (now : ℝ) :
    (updateOrientation s o now).1.scannedPoints = s.scannedPoints
    ∨ (updateOrientation s o now).1.scannedPoints =
        s.scannedPoints ++
          calculateFOVCoverage (orientationToSpherical o).1 (orientationToSpherical o).2 now := by
  unfold updateOrientation
  split_ifs
  · left; rfl
  · right; rfl
  · left; rfl

/-- C3: the reported coverage is a pure function of the point history,
equal to the raw percentage `(visitedCells / R²) × 100` snapped to
exactly 100 when at least 96 and clamped into `[0, 100]`, and
`getCoverage` recomputes it from the entire stored history. -/
theorem claim_C3 :
    ∀ (pts : List ScanPoint) (s : TrackerState),
      (calculateCoverage pts).totalCoverage =
        min (if 96 ≤ rawCoverage pts then 100 else rawCoverage pts) 100
      ∧ 0 ≤ (calculateCoverage pts).totalCoverage
      ∧ (calculateCoverage pts).totalCoverage ≤ 100
      ∧ (calculateCoverage pts).scannedPoints = pts
      ∧ getCoverage s = calculateCoverage s.scannedPoints := by
  intro pts s
  have h := calculateCoverage_totalCoverage pts
  refine ⟨h, ?_, ?_, calculateCoverage_scannedPoints pts, rfl⟩
  · rw [h]
    exact totalCoverageFormula_nonneg pts
  · rw [h]
    exact min_le_right _ _

/-- C4: reported coverage is monotone in the point history — one more
`updateOrientation` call never decreases it, and hence neither does any
further sequence of calls. -/
theorem claim_C4 :
    (∀ (s : TrackerState) (o : Orientation) (now : ℝ),
      (getCoverage s).totalCoverage ≤ (getCoverage (updateOrientation s o now).1).totalCoverage)
    ∧ ∀ (s : TrackerState) (feeds : List (Orientation × ℝ)),
      (getCoverage s).totalCoverage ≤
        (getCoverage (feeds.foldl (fun st f => (updateOrientation st f.1 f.2).1) s)).totalCoverage := by
  have hstep : ∀ (s : TrackerState) (o : Orientation) (now : ℝ),
      (getCoverage s).totalCoverage ≤
        (getCoverage (updateOrientation s o now).1).totalCoverage := by
    intro s o now
    unfold getCoverage
    rw [calculateCoverage_totalCoverage, calculateCoverage_totalCoverage]
    rcases updateOrientation_points_eq_or_append s o now with h | h
    · rw [h]
    · rw [h]
      exact totalCoverageFormula_mono (buildGrid_append_subset _ _)
  refine ⟨hstep, ?_⟩
  intro s feeds
  induction feeds generalizing s with
  | nil => exact le_refl _
  | cons f feeds ih =>
      rw [List.foldl_cons]
      exact (hstep s f.1 f.2).trans (ih _)

/-- C5: a call within the 200 ms dwell window of the last accepted call
is a complete no-op; a call at or beyond the window is accepted and
stamps `lastCaptureTime`; hence two calls inside the window yield
exactly one accepted update. -/
theorem claim_C5 :
    ∀ (s : TrackerState) (o o2 : Orientation) (now t2 : ℝ),
      (now - s.lastCaptureTime < minDwellTime → updateOrientation s o now = (s, none))
      ∧ (minDwellTime ≤ now - s.lastCaptureTime →
          (updateOrientation s o now).1.lastCaptureTime = now)
      ∧ (minDwellTime ≤ now - s.lastCaptureTime → t2 - now < minDwellTime →
          updateOrientation (updateOrientation s o now).1 o2 t2 =
            ((updateOrientation s o now).1, none)) := by
  have hthrottle : ∀ (st : TrackerState) (oo : Orientation) (tt : ℝ),
      tt - st.lastCaptureTime < minDwellTime → updateOrientation st oo tt = (st, none) := by
    intro st oo tt h
    unfold updateOrientation
    rw [if_pos h]
  intro s o o2 now t2
  have haccept : minDwellTime ≤ now - s.lastCaptureTime →
      (updateOrientation s o now).1.lastCaptureTime = now := by
    intro h
    unfold updateOrientation
    rw [if_neg (not_lt.mpr h)]
    split_ifs <;> rfl
  refine ⟨hthrottle s o now, haccept, fun h1 h2 => ?_⟩
  exact hthrottle _ o2 t2 (by rw [haccept h1]; exact h2)

/-- Witness for C5: a call 100 ms after the last accepted one is a
no-op; a call 300 ms after reset is accepted and stamps the throttle
timestamp; a second call 100 ms later is again a no-op. -/
theorem claim_C5_witness :
    updateOrientation ⟨[], 100⟩ ⟨0, 0, 0⟩ 200 = (⟨[], 100⟩, none)
    ∧ (updateOrientation ⟨[], 0⟩ ⟨0, 0, 0⟩ 300).1.lastCaptureTime = 300
    ∧ updateOrientation (updateOrientation ⟨[], 0⟩ ⟨0, 0, 0⟩ 300).1 ⟨0, 0, 0⟩ 400 =
        ((updateOrientation ⟨[], 0⟩ ⟨0, 0, 0⟩ 300).1, none) :=
  ⟨(claim_C5 ⟨[], 100⟩ ⟨0, 0, 0⟩ ⟨0, 0, 0⟩ 200 0).1 (by norm_num [minDwellTime]),
   (claim_C5 ⟨[], 0⟩ ⟨0, 0, 0⟩ ⟨0, 0, 0⟩ 300 0).2.1 (by norm_num [minDwellTime]),
   (claim_C5 ⟨[], 0⟩ ⟨0, 0, 0⟩ ⟨0, 0, 0⟩ 300 400).2.2 (by norm_num [minDwellTime])
     (by norm_num [minDwellTime])⟩

/-- C6: a non-throttled call whose look-direction phi is outside the
tolerance-extended white dome records no points, invokes no coverage
callback, and leaves the reported coverage unchanged. -/
theorem claim_C6 :
    ∀ (s : TrackerState) (o : Orientation) (now : ℝ),
      minDwellTime ≤ now - s.lastCaptureTime →
      ¬ isInWhiteDome (orientationToSpherical o).1 →
      (updateOrientation s o now).1.scannedPoints = s.scannedPoints
      ∧ (updateOrientation s o now).2 = none
      ∧ getCoverage (updateOrientation s o now).1 = getCoverage s := by
  intro s o now h1 h2
  unfold updateOrientation
  rw [if_neg (not_lt.mpr h1), if_pos h2]
  exact ⟨rfl, rfl, rfl⟩

/-- Witness for C6: the straight-up orientation `pitch = π` has
look-direction `phi = 0`, outside the band, and a non-throttled update
with it changes nothing observable. -/
theorem claim_C6_witness :
    (updateOrientation ⟨[], 0⟩ ⟨Real.pi, 0, 0⟩ 300).1.scannedPoints = ([] : List ScanPoint)
    ∧ (updateOrientation ⟨[], 0⟩ ⟨Real.pi, 0, 0⟩ 300).2 = none
    ∧ getCoverage (updateOrientation ⟨[], 0⟩ ⟨Real.pi, 0, 0⟩ 300).1 = getCoverage ⟨[], 0⟩ := by
  have harg : Real.pi - Real.pi / 2 = Real.pi / 2 := by ring
  have hsph : (orientationToSpherical ⟨Real.pi, 0, 0⟩).1 = 0 := by
    simp [orientationToSpherical, harg, Real.sin_pi_div_two, Real.arccos_one]
  have hout : ¬ isInWhiteDome (orientationToSpherical ⟨Real.pi, 0, 0⟩).1 := by
    rw [hsph]
    unfold isInWhiteDome WHITE_DOME_PHI_START_WITH_TOLERANCE WHITE_DOME_PHI_START
    rintro ⟨hlo, -⟩
    nlinarith [Real.pi_gt_three]
  exact claim_C6 ⟨[], 0⟩ ⟨Real.pi, 0, 0⟩ 300 (by norm_num [minDwellTime]) hout

/-- C8: stored-point invariant — under the wellformedness of the
existing history, every point stored after an update has `phi ∈ [0, π]`
inside the tolerance-extended band and `theta ∈ [0, 2π)`; updates only
ever append to the history, and `reset` is what empties it. -/
theorem claim_C8 :
    ∀ (s : TrackerState) (o : Orientation) (now : ℝ) (p : ScanPoint),
      ((∀ q ∈ s.scannedPoints, pointOK q) →
        p ∈ (updateOrientation s o now).1.scannedPoints → pointOK p)
      ∧ (updateOrientation s o now).1.scannedPoints =
          s.scannedPoints ++
            (updateOrientation s o now).1.scannedPoints.drop s.scannedPoints.length
      ∧ (ScanTracker.reset s).1.scannedPoints = []
      ∧ (ScanTracker.reset s).1.lastCaptureTime = 0 := by
  intro s o now p
  rcases updateOrientation_points_eq_or_append s o now with h | h
  · refine ⟨fun hinv hp => ?_, ?_, rfl, rfl⟩
    · rw [h] at hp
      exact hinv p hp
    · rw [h, List.drop_length, List.append_nil]
  · refine ⟨fun hinv hp => ?_, ?_, rfl, rfl⟩
    · rw [h] at hp
      rcases List.mem_append.mp hp with hp | hp
      · exact hinv p hp
      · exact pointOK_of_mem_calculateFOVCoverage hp
    · rw [h, List.drop_left]

/-- Witness for C8 at a concrete state: a history holding the single
in-band point `(phi, theta) = (5π/6, 0)` is wellformed, and a throttled
update keeps its point wellformed. -/
theorem claim_C8_witness : pointOK ⟨5 * Real.pi / 6, 0, 0⟩ := by
  have hOK : ∀ q ∈ [(⟨5 * Real.pi / 6, 0, 0⟩ : ScanPoint)], pointOK q := by
    intro q hq
    simp only [List.mem_singleton] at hq
    subst hq
    refine ⟨by positivity, by nlinarith [Real.pi_pos], ⟨?_, ?_⟩, le_refl 0, ?_⟩
    · unfold WHITE_DOME_PHI_START_WITH_TOLERANCE WHITE_DOME_PHI_START
      nlinarith [Real.pi_pos]
    · unfold WHITE_DOME_PHI_END_WITH_TOLERANCE WHITE_DOME_PHI_END
      nlinarith [Real.pi_pos]
    · unfold TWO_PI
      exact Real.two_pi_pos
  have hmem : (⟨5 * Real.pi / 6, 0, 0⟩ : ScanPoint) ∈
      (updateOrientation ⟨[⟨5 * Real.pi / 6, 0, 0⟩], 0⟩ ⟨0, 0, 0⟩ 100).1.scannedPoints := by
    have hu : updateOrientation ⟨[⟨5 * Real.pi / 6, 0, 0⟩], 0⟩ ⟨0, 0, 0⟩ 100 =
        (⟨[⟨5 * Real.pi / 6, 0, 0⟩], 0⟩, none) := by
      unfold updateOrientation
      rw [if_pos (by norm_num [minDwellTime])]
    rw [hu]
    simp
  exact (claim_C8 ⟨[⟨5 * Real.pi / 6, 0, 0⟩], 0⟩ ⟨0, 0, 0⟩ 100 ⟨5 * Real.pi / 6, 0, 0⟩).1
    hOK hmem

/-- C9: after `OrientationTracker.reset()` the current orientation reads
exactly `{0, 0, 0}`, and `ScanTracker.reset()` clears the history and
throttle timestamp and synchronously hands
`{totalCoverage: 0, scannedPoints: []}` to the coverage callback. -/
theorem claim_C9 :
    ∀ (s : GyroState) (s2 : TrackerState),
      OrientationTracker.getCurrentOrientation (OrientationTracker.reset s) = ⟨0, 0, 0⟩
      ∧ (ScanTracker.reset s2).1.scannedPoints = []
      ∧ (ScanTracker.reset s2).1.lastCaptureTime = 0
      ∧ (ScanTracker.reset s2).2 = ⟨0, []⟩ :=
  fun _ _ => ⟨rfl, rfl, rfl, rfl⟩

/-- Helper: dereferencing the freshly appended object. -/
theorem readAddr_append_self (h : List Orientation) (v : Orientation) :
    RefModel.readAddr (h ++ [v]) h.length = v := by
  unfold RefModel.readAddr
  rw [List.getD_append_right _ _ _ _ (le_refl _)]
  simp

/-- Helper: appending a fresh object does not change existing
addresses. -/
theorem readAddr_append_of_lt (h : List Orientation) (v : Orientation) (a : ℕ)
    (ha : a < h.length) : RefModel.readAddr (h ++ [v]) a = RefModel.readAddr h a := by
  unfold RefModel.readAddr
  rw [List.getD_append _ _ _ _ ha]

/-- C10, counterexample: the gyroscope listener hands the callback the
address of the internal `currentOrientation` object itself, so a
consumer overwriting the object it received does alter the estimator's
subsequent orientation values. -/
theorem claim_C10_counterexample :
    (RefModel.gyroUpdate ⟨[⟨0, 0, 0⟩], 0⟩ 1000 1100 ⟨0, 0, 0⟩).2 = some 0
    ∧ RefModel.readAddr (RefModel.gyroUpdate ⟨[⟨0, 0, 0⟩], 0⟩ 1000 1100 ⟨0, 0, 0⟩).1.heap 0
        ≠ ⟨1, 2, 3⟩
    ∧ RefModel.readAddr (RefModel.consumerWrite
          (RefModel.gyroUpdate ⟨[⟨0, 0, 0⟩], 0⟩ 1000 1100 ⟨0, 0, 0⟩).1 0 ⟨1, 2, 3⟩).heap 0
        = ⟨1, 2, 3⟩ := by
  have hg : RefModel.gyroUpdate ⟨[⟨0, 0, 0⟩], 0⟩ 1000 1100 ⟨0, 0, 0⟩ =
      (⟨[⟨0 + 0 * ((1100 - 1000) / 1000), 0 + 0 * ((1100 - 1000) / 1000),
          0 + 0 * ((1100 - 1000) / 1000)⟩], 0⟩, some 0) := by
    unfold RefModel.gyroUpdate RefModel.writeAddr RefModel.readAddr
    norm_num
  refine ⟨by rw [hg], ?_, ?_⟩
  · rw [hg]
    unfold RefModel.readAddr
    simp only [List.getD_cons_zero]
    intro hcon
    rw [Orientation.mk.injEq] at hcon
    norm_num at hcon
  · rw [hg]
    unfold RefModel.consumerWrite RefModel.writeAddr RefModel.readAddr
    simp

/-- C10, amended: `getCurrentOrientation()` does return a value copy at
a fresh address — mutating what its caller receives never alters the
internal estimate — but the orientation-change callback is handed the
internal object itself, so that half of the claim is the aliasing path
refuted by the counterexample. -/
theorem claim_C10_amended :
    ∀ (st : RefModel.RefState) (o2 : Orientation) (lastT t : ℝ) (ω : Vector3),
      st.cur < st.heap.length →
      RefModel.readAddr (RefModel.getCurrentOrientation st).1.heap
          (RefModel.getCurrentOrientation st).2 = RefModel.readAddr st.heap st.cur
      ∧ (RefModel.getCurrentOrientation st).2 ≠ st.cur
      ∧ RefModel.readAddr (RefModel.consumerWrite (RefModel.getCurrentOrientation st).1
            (RefModel.getCurrentOrientation st).2 o2).heap st.cur
          = RefModel.readAddr st.heap st.cur
      ∧ ((RefModel.gyroUpdate st lastT t ω).2 = none
          ∨ (RefModel.gyroUpdate st lastT t ω).2 = some st.cur) := by
  intro st o2 lastT t ω hcur
  refine ⟨?_, ?_, ?_, ?_⟩
  · exact readAddr_append_self st.heap _
  · exact fun hcon => absurd (hcon ▸ hcur) (lt_irrefl _)
  · show RefModel.readAddr ((st.heap ++ [RefModel.readAddr st.heap st.cur]).set
        st.heap.length o2) st.cur = RefModel.readAddr st.heap st.cur
    rw [List.set_append_right _ _ (le_refl _)]
    simp only [Nat.sub_self, List.set_cons_zero]
    exact readAddr_append_of_lt st.heap o2 st.cur hcur
  · unfold RefModel.gyroUpdate
    split_ifs
    · exact Or.inl rfl
    · exact Or.inl rfl
    · exact Or.inr rfl

/-- Witness for C10's amended theorem at a concrete one-object heap. -/
theorem claim_C10_amended_witness :
    RefModel.readAddr (RefModel.getCurrentOrientation ⟨[⟨4, 5, 6⟩], 0⟩).1.heap
        (RefModel.getCurrentOrientation ⟨[⟨4, 5, 6⟩], 0⟩).2
      = RefModel.readAddr [⟨4, 5, 6⟩] 0
    ∧ (RefModel.getCurrentOrientation ⟨[⟨4, 5, 6⟩], 0⟩).2 ≠ 0
    ∧ RefModel.readAddr (RefModel.consumerWrite
          (RefModel.getCurrentOrientation ⟨[⟨4, 5, 6⟩], 0⟩).1
          (RefModel.getCurrentOrientation ⟨[⟨4, 5, 6⟩], 0⟩).2 ⟨7, 7, 7⟩).heap 0
      = RefModel.readAddr [⟨4, 5, 6⟩] 0
    ∧ ((RefModel.gyroUpdate ⟨[⟨4, 5, 6⟩], 0⟩ 0 100 ⟨1, 1, 1⟩).2 = none
        ∨ (RefModel.gyroUpdate ⟨[⟨4, 5, 6⟩], 0⟩ 0 100 ⟨1, 1, 1⟩).2 = some 0) :=
  claim_C10_amended ⟨[⟨4, 5, 6⟩], 0⟩ ⟨7, 7, 7⟩ 0 100 ⟨1, 1, 1⟩ (by simp)

end SkyScan
